import Mathlib

/-!
# Verification of the async-to-sync file-dialog bridge

A shallow embedding of the `bevy_file_dialog` crate (`src/lib.rs` and
`src/pick.rs`) and proofs about it.

Modelling conventions:
* Rust marker types `T` keying the phantom-typed channels become `Kind := Nat`
  (distinct types become distinct numbers).
* Bevy's `World` resource map, keyed here by `StreamSender<_>`/`StreamReceiver<_>`
  type (that is, by message shape and marker type), becomes an association list
  from `(Family, Kind)` to a channel.  `StreamSender`/`StreamReceiver` are two
  views of one crossbeam channel, modelled as a single `Channel` value.
* `Vec<u8>` becomes `List Nat`; `io::Result<()>` becomes `IoResult`; `rfd`
  file handles carry the name the dialog reports and the bytes `read()` yields.
* An async block is embedded as the trace of `send` calls it performs, as a
  function of the provider's response (the `rfd` future results) and of the
  filesystem collaborator's answers.
* The per-tick poll systems (`poll_save_dialog_result` and friends) become
  functions from the drained message list to the list of Bevy events written.
-/

set_option autoImplicit false

namespace BevyFileDialog

/-- Marker kind: stands for the Rust marker type parameter `T`. -/
abbrev Kind := Nat

/-- The operation family of a channel.  Each family corresponds to one message
shape in the source: `Option<DialogFileSaved<T>>`, `Option<DialogFileLoaded<T>>`,
`Option<Vec<DialogFileLoaded<T>>>`, `DialogResult<DialogDirectoryPicked<T>>`,
`DialogResult<DialogFilePicked<T>>`.  Note that in `pick.rs` the single and
multi pick variants share one channel per marker type, so they are one family. -/
inductive Family where
  | saveFile
  | loadFile
  | loadMultipleFiles
  | pickDirectory
  | pickFile
deriving DecidableEq, Repr

/-- Model of `std::io::Error`: identified by its message. -/
abbrev IoError := String

/-- Model of `io::Result<()>` as returned by `FileHandle::write`. -/
inductive IoResult where
  | ok
  | ioError (e : IoError)
deriving DecidableEq, Repr

/-- Model of a `std::path::Path`/`PathBuf`.  A Rust path need not be valid
UTF-8; `to_str` is its optional UTF-8 view, exactly what `Path::to_str`
returns. -/
structure OsPath where
  to_str : Option String
deriving DecidableEq, Repr

/-- `DialogFileSaved<T>` (src/lib.rs:192): name of the saved file plus the
result of the filesystem write.  The `PhantomData<T>` marker is carried as the
`Kind` tag on emitted events instead. -/
structure DialogFileSaved where
  file_name : String
  result : IoResult
deriving DecidableEq, Repr

/-- `DialogFileLoaded<T>` (src/lib.rs:204): name and byte contents of the
loaded file. -/
structure DialogFileLoaded where
  file_name : String
  contents : List Nat
deriving DecidableEq, Repr

/-- `DialogDirectoryPicked<T>` (src/pick.rs:18): picked path plus the
caller-supplied user data (modelled as a `Nat`). -/
structure DialogDirectoryPicked where
  path : OsPath
  data : Nat
deriving DecidableEq, Repr

/-- `DialogFilePicked<T>` (src/pick.rs:43): picked path plus user data. -/
structure DialogFilePicked where
  path : OsPath
  data : Nat
deriving DecidableEq, Repr

/-- Modelled from the spec: the `DialogResult` sum type is referenced by
`src/pick.rs` (`use crate::{... DialogResult ...}`) but its definition is not
under `src/`.  The spec calls it the Tagged Result: "sum type {Single(item),
Batch(ordered items), Canceled}. Exactly one per completed operation; Canceled
never carries an item." -/
inductive DialogResult (α : Type) where
  | single (item : α)
  | batch (items : List α)
  | canceled
deriving DecidableEq, Repr

/-! ## The dialog configuration builder (src/lib.rs:237-295)

The Rust `FileDialog` also holds `commands: &mut Commands`; command queueing is
modelled separately (`LaunchCmd` below), so the embedded struct keeps only the
configuration fields. -/

/-- `FileDialog` builder state (src/lib.rs:237-243). -/
structure FileDialog where
  filters : List (String × List String)
  starting_directory : Option OsPath
  file_name : Option String
  title : Option String
deriving DecidableEq, Repr

/-- `FileDialogExt::dialog` for `Commands` (src/lib.rs:406-414): a fresh
builder with all fields empty. -/
def FileDialog.dialog : FileDialog :=
  { filters := [], starting_directory := none, file_name := none, title := none }

/-- `FileDialog::add_filter` (src/lib.rs:255-261): pushes
`(name, extensions)` onto the ordered filter list.  The Rust code maps each
extension through `ToString`; extensions arrive here already as strings. -/
def FileDialog.add_filter (d : FileDialog) (name : String) (extensions : List String) : FileDialog :=
  { d with filters := d.filters ++ [(name, extensions)] }

/-- `FileDialog::set_directory` (src/lib.rs:267-275): clears the hint when
`path.to_str().map(|p| p.is_empty()).unwrap_or(false)`, otherwise stores the
path. -/
def FileDialog.set_directory (d : FileDialog) (path : OsPath) : FileDialog :=
  if (path.to_str.map String.isEmpty).getD false then
    { d with starting_directory := none }
  else
    { d with starting_directory := some path }

/-- `FileDialog::set_file_name` (src/lib.rs:281-284). -/
def FileDialog.set_file_name (d : FileDialog) (file_name : String) : FileDialog :=
  { d with file_name := some file_name }

/-- `FileDialog::set_title` (src/lib.rs:291-294). -/
def FileDialog.set_title (d : FileDialog) (title : String) : FileDialog :=
  { d with title := some title }

/-! ## The provider-side dialog configuration (`rfd::AsyncFileDialog`)

The platform dialog provider is an external collaborator; what the core passes
to it is an `AsyncFileDialog` value.  We model its configuration state; the
only constructor the launched tasks in `src/lib.rs` use is
`AsyncFileDialog::new()`. -/

/-- Configuration state of an `rfd::AsyncFileDialog`. -/
structure AsyncFileDialog where
  filters : List (String × List String)
  directory : Option OsPath
  file_name : Option String
  title : Option String
deriving DecidableEq, Repr

/-- `rfd::AsyncFileDialog::new()`: a dialog with no filters and no hints. -/
def AsyncFileDialog.new : AsyncFileDialog :=
  { filters := [], directory := none, file_name := none, title := none }

/-- The dialog configuration the save task hands to the provider.  The spawned
async block in `FileDialog::save_file` (src/lib.rs:309) calls
`AsyncFileDialog::new().save_file()`: the closure captures only `contents`,
so the builder state `d` is dropped and the provider sees a fresh default
configuration. -/
def saveFileProviderConfig (_d : FileDialog) : AsyncFileDialog :=
  AsyncFileDialog.new

/-- The dialog configuration the load task hands to the provider
(`AsyncFileDialog::new().pick_file()`, src/lib.rs:341); the builder state is
dropped. -/
def loadFileProviderConfig (_d : FileDialog) : AsyncFileDialog :=
  AsyncFileDialog.new

/-- The dialog configuration the multi-load task hands to the provider
(`AsyncFileDialog::new().pick_files()`, src/lib.rs:375); the builder state is
dropped. -/
def loadMultipleFilesProviderConfig (_d : FileDialog) : AsyncFileDialog :=
  AsyncFileDialog.new

/-! ## Channels, the resource map and registration

`crossbeam_channel::bounded(cap)` yields a sender/receiver pair over one
bounded queue; `send` on a full bounded channel blocks until space frees up.
`send` below returns `none` exactly when the caller would block. -/

/-- A message travelling through one of the crate's channels.  The Rust
channels are monomorphic (one payload type each); the constructor records
which payload shape a message has, mirroring the type index of
`StreamSender<_>`. -/
inductive Msg where
  | saveMsg (m : Option DialogFileSaved)
  | loadMsg (m : Option DialogFileLoaded)
  | loadMultiMsg (m : Option (List DialogFileLoaded))
  | pickDirMsg (m : DialogResult DialogDirectoryPicked)
  | pickFileMsg (m : DialogResult DialogFilePicked)
deriving DecidableEq, Repr

/-- A bounded crossbeam channel: capacity plus the currently buffered
messages, oldest first. -/
structure Channel where
  cap : Nat
  buf : List Msg
deriving DecidableEq, Repr

/-- `Sender::send` on a bounded channel: enqueues when the buffer is below
capacity, otherwise the sending thread blocks (`none`). -/
def Channel.send (ch : Channel) (m : Msg) : Option Channel :=
  if ch.buf.length < ch.cap then some { ch with buf := ch.buf ++ [m] } else none

/-- Resource key: Bevy keys resources by Rust type; the channel resource types
here are indexed by message shape (the family) and marker type (the kind). -/
abbrev ResKey := Family × Kind

/-- The channel resources of a Bevy `World`, keyed by `(Family, Kind)`. -/
abbrev World := List (ResKey × Channel)

/-- `World::get_resource`: first binding for the key, if any. -/
def getResource : World → ResKey → Option Channel
  | [], _ => none
  | (k, c) :: rest, key => if k = key then some c else getResource rest key

/-- `App::insert_resource`: a later insert shadows an earlier one for lookup,
matching Bevy's replace-on-insert semantics. -/
def insertResource (w : World) (key : ResKey) (ch : Channel) : World :=
  (key, ch) :: w

/-- Deliver a completed background unit's message into the channel at `key`:
appends to that channel's buffer, leaving every other channel untouched.
(Capacity is treated separately via `Channel.send`; claims about drain
behaviour only need the buffered contents.) -/
def pushMsg : World → ResKey → Msg → World
  | [], _, _ => []
  | (k, c) :: rest, key, m =>
    if k = key then (k, { c with buf := c.buf ++ [m] }) :: rest
    else (k, c) :: pushMsg rest key m

/-- Event types registered by `add_event`/`add_message` calls during setup. -/
inductive EventReg where
  | savedEvents (k : Kind)
  | saveCanceledEvents (k : Kind)
  | loadedEvents (k : Kind)
  | loadCanceledEvents (k : Kind)
  | dirPickedEvents (k : Kind)
  | dirPickCanceledEvents (k : Kind)
  | filePickedEvents (k : Kind)
  | filePickCanceledEvents (k : Kind)
deriving DecidableEq, Repr

/-- Poll systems added to the `First` schedule during setup. -/
inductive SystemReg where
  | pollSaveSys (k : Kind)
  | pollLoadSys (k : Kind)
  | pollLoadMultiSys (k : Kind)
  | handleDirResultSys (k : Kind)
  | handleFileResultSys (k : Kind)
deriving DecidableEq, Repr

/-- The parts of a Bevy `App` the plugin touches: channel resources, registered
event types, and systems in the `First` schedule. -/
structure App where
  world : World
  events : List EventReg
  firstSystems : List SystemReg
deriving DecidableEq, Repr

/-- An `App` with nothing registered. -/
def App.empty : App :=
  { world := [], events := [], firstSystems := [] }

/-- One registration descriptor: stands for one closure pushed onto the
plugin's `Vec<RegisterIntent>` by a `with_*` call, recorded as data (which
`with_*` it was, at which marker kind). -/
inductive RegAction where
  | withSaveFileAct (k : Kind)
  | withLoadFileAct (k : Kind)
  | withPickDirectoryAct (k : Kind)
  | withPickFileAct (k : Kind)
deriving DecidableEq, Repr

/-- Run one registration closure against the app.
* `with_save_file::<T>` (src/lib.rs:107-117): `bounded(1)` channel for
  `Option<DialogFileSaved<T>>`, both event types, one `First` system.
* `with_load_file::<T>` (src/lib.rs:123-142): two `bounded(1)` channels
  (single and multiple), both event types, two `First` systems.
* `with_pick_directory::<T>` / `with_pick_file::<T>` (src/pick.rs:74-111):
  one `bounded(1)` channel of `DialogResult<_>`, both event types, one
  `First` system. -/
def applyAction (act : RegAction) (app : App) : App :=
  match act with
  | .withSaveFileAct k =>
    { world := insertResource app.world (Family.saveFile, k) ⟨1, []⟩
      events := app.events ++ [.savedEvents k, .saveCanceledEvents k]
      firstSystems := app.firstSystems ++ [.pollSaveSys k] }
  | .withLoadFileAct k =>
    { world := insertResource (insertResource app.world (Family.loadFile, k) ⟨1, []⟩)
        (Family.loadMultipleFiles, k) ⟨1, []⟩
      events := app.events ++ [.loadedEvents k, .loadCanceledEvents k]
      firstSystems := app.firstSystems ++ [.pollLoadSys k, .pollLoadMultiSys k] }
  | .withPickDirectoryAct k =>
    { world := insertResource app.world (Family.pickDirectory, k) ⟨1, []⟩
      events := app.events ++ [.dirPickedEvents k, .dirPickCanceledEvents k]
      firstSystems := app.firstSystems ++ [.handleDirResultSys k] }
  | .withPickFileAct k =>
    { world := insertResource app.world (Family.pickFile, k) ⟨1, []⟩
      events := app.events ++ [.filePickedEvents k, .filePickCanceledEvents k]
      firstSystems := app.firstSystems ++ [.handleFileResultSys k] }

/-- The error `Plugin::build` raises through its `assert!` when the plugin has
no registrations (src/lib.rs:224-227). -/
inductive BuildError where
  | notInitialized
deriving DecidableEq, Repr

/-- Apply the registration closures in the order the `with_*` calls pushed
them (the `for action in &self.0` loop, src/lib.rs:229-231). -/
def applyActions (acts : List RegAction) (app : App) : App :=
  acts.foldl (fun a act => applyAction act a) app

/-- `impl Plugin for FileDialogPlugin`, `fn build` (src/lib.rs:222-233):
asserts the registration list is non-empty, then applies every closure in
order. -/
def FileDialogPlugin.build (acts : List RegAction) (app : App) : Except BuildError App :=
  if acts.isEmpty then .error .notInitialized
  else .ok (applyActions acts app)

/-- `FileDialogPlugin::new` (src/lib.rs:99-101): a plugin with an empty
registration list. -/
def FileDialogPlugin.new : List RegAction := []

/-- `FileDialogPlugin::with_save_file::<T>` (src/lib.rs:107-117):
`self.0.push(...)` appends one registration closure. -/
def FileDialogPlugin.with_save_file (acts : List RegAction) (k : Kind) : List RegAction :=
  acts ++ [RegAction.withSaveFileAct k]

/-- `FileDialogPlugin::with_load_file::<T>` (src/lib.rs:123-142). -/
def FileDialogPlugin.with_load_file (acts : List RegAction) (k : Kind) : List RegAction :=
  acts ++ [RegAction.withLoadFileAct k]

/-- `FileDialogPlugin::with_pick_directory::<T>` (src/pick.rs:74-87). -/
def FileDialogPlugin.with_pick_directory (acts : List RegAction) (k : Kind) : List RegAction :=
  acts ++ [RegAction.withPickDirectoryAct k]

/-- `FileDialogPlugin::with_pick_file::<T>` (src/pick.rs:98-111). -/
def FileDialogPlugin.with_pick_file (acts : List RegAction) (k : Kind) : List RegAction :=
  acts ++ [RegAction.withPickFileAct k]

/-! ## Launch commands and the registration check (src/lib.rs:299-395, src/pick.rs:114-279)

Each terminal builder call queues a closure on `Commands`; Bevy applies queued
commands at the next sync point of the same schedule run, i.e. within the tick
in which the call was made.  The closure looks up the `StreamSender` resource
for the marker type and `expect`s it, panicking with a configuration error if
the corresponding `with_*` registration is missing; otherwise it clones the
sender and spawns the background unit. -/

/-- A queued terminal launch: one per terminal builder method. -/
inductive LaunchCmd where
  | saveFileCmd (k : Kind) (contents : List Nat)
  | loadFileCmd (k : Kind)
  | loadMultipleFilesCmd (k : Kind)
  | pickDirectoryPathCmd (k : Kind) (data : Nat)
  | pickMultipleDirectoryPathsCmd (k : Kind) (data : Nat)
  | pickFilePathCmd (k : Kind) (data : Nat)
  | pickMultipleFilePathsCmd (k : Kind) (data : Nat)
deriving DecidableEq, Repr

/-- The resource each launch's closure looks up: save/load/load-multiple have
their own channels; single and multiple picks share the per-kind
`DialogResult` channel (src/pick.rs:123, 162, 206, 247). -/
def LaunchCmd.requiredKey : LaunchCmd → ResKey
  | .saveFileCmd k _ => (Family.saveFile, k)
  | .loadFileCmd k => (Family.loadFile, k)
  | .loadMultipleFilesCmd k => (Family.loadMultipleFiles, k)
  | .pickDirectoryPathCmd k _ => (Family.pickDirectory, k)
  | .pickMultipleDirectoryPathsCmd k _ => (Family.pickDirectory, k)
  | .pickFilePathCmd k _ => (Family.pickFile, k)
  | .pickMultipleFilePathsCmd k _ => (Family.pickFile, k)

/-- The panic the `expect` raises when the kind was never registered. -/
inductive ConfigError where
  | notInitializedFor (key : ResKey)
deriving DecidableEq, Repr

/-- Apply one queued launch closure to the world: `get_resource::<StreamSender<_>>()
.expect(...)` — a missing registration panics, a present one just clones the
sender and spawns the task (the task itself is modelled by the traces below,
so the world is unchanged here). -/
def applyLaunchCmd (w : World) (c : LaunchCmd) : Except ConfigError World :=
  match getResource w c.requiredKey with
  | none => .error (.notInitializedFor c.requiredKey)
  | some _ => .ok w

/-- Apply all launch commands queued during one tick, in order, at that tick's
command-application point; the first missing registration panics and aborts. -/
def runTickCommands (w : World) : List LaunchCmd → Except ConfigError World
  | [] => .ok w
  | c :: cs =>
    match applyLaunchCmd w c with
    | .error e => .error e
    | .ok w2 => runTickCommands w2 cs

/-! ## Background unit traces

An `rfd` file handle: `file_name()` is the name the dialog reports, and the
bytes are what `read()` resolves to.  Each async block is embedded as the list
of messages it sends over its whole lifetime, as a function of the provider's
response.  The filesystem collaborator's answer to `write` is a parameter. -/

/-- A file handle returned by the provider. -/
structure FileHandle where
  file_name : String
  path : OsPath
  contents : List Nat
deriving DecidableEq, Repr

/-- Send trace of the async block spawned by `FileDialog::save_file`
(src/lib.rs:307-324): provider dismissal sends `None` and returns; a chosen
target sends one `DialogFileSaved` carrying `file.write(&contents).await`'s
result. -/
def saveTaskTrace (file : Option FileHandle)
    (write : FileHandle → List Nat → IoResult) (contents : List Nat) :
    List (Option DialogFileSaved) :=
  match file with
  | none => [none]
  | some f => [some { file_name := f.file_name, result := write f contents }]

/-- Send trace of the async block spawned by `FileDialog::load_file`
(src/lib.rs:339-356): dismissal sends `None`; a chosen file sends one
`DialogFileLoaded` with the bytes `file.read().await` yields. -/
def loadTaskTrace (file : Option FileHandle) : List (Option DialogFileLoaded) :=
  match file with
  | none => [none]
  | some f => [some { file_name := f.file_name, contents := f.contents }]

/-- Send trace of the async block spawned by `FileDialog::load_multiple_files`
(src/lib.rs:373-393): dismissal sends `None`; a chosen list sends one message
carrying the whole batch, one `DialogFileLoaded` per handle in provider
order. -/
def loadMultipleTaskTrace (files : Option (List FileHandle)) :
    List (Option (List DialogFileLoaded)) :=
  match files with
  | none => [none]
  | some fs =>
    [some (fs.map fun f => { file_name := f.file_name, contents := f.contents })]

/-- Send trace of the `pick_directory_path` task (src/pick.rs:132-149):
dismissal sends `Canceled`; a chosen folder sends `Single`. -/
def pickDirectoryTaskTrace (file : Option OsPath) (data : Nat) :
    List (DialogResult DialogDirectoryPicked) :=
  match file with
  | none => [.canceled]
  | some p => [.single { path := p, data := data }]

/-- Send trace of the `pick_multiple_directory_paths` task
(src/pick.rs:171-192): dismissal sends `Canceled`; a chosen list sends one
`Batch`, cloning `data` for each path, in provider order. -/
def pickMultipleDirectoriesTaskTrace (files : Option (List OsPath)) (data : Nat) :
    List (DialogResult DialogDirectoryPicked) :=
  match files with
  | none => [.canceled]
  | some ps => [.batch (ps.map fun p => { path := p, data := data })]

/-- Send trace of the `pick_file_path` task (src/pick.rs:215-232). -/
def pickFileTaskTrace (file : Option OsPath) (data : Nat) :
    List (DialogResult DialogFilePicked) :=
  match file with
  | none => [.canceled]
  | some p => [.single { path := p, data := data }]

/-- Send trace of the `pick_multiple_file_paths` task (src/pick.rs:256-277). -/
def pickMultipleFilesTaskTrace (files : Option (List OsPath)) (data : Nat) :
    List (DialogResult DialogFilePicked) :=
  match files with
  | none => [.canceled]
  | some ps => [.batch (ps.map fun p => { path := p, data := data })]

/-! ## Poll systems and event emission

Each poll system runs in `First` once per tick, drains its receiver with
`try_iter` (non-blocking, removes every currently queued message in arrival
order) and writes Bevy events.  Emitted events are tagged with the marker
kind, standing for the `PhantomData<T>` type index of the Rust event types.
Completion and cancellation events go to two separate `EventWriter`s in the
source; one interleaved output list in drain order keeps both streams while
preserving each one's order. -/

/-- A host-visible Bevy event written by a poll system, tagged with the marker
kind it is typed by. -/
inductive OutEvent where
  | fileSaved (k : Kind) (e : DialogFileSaved)
  | fileSaveCanceled (k : Kind)
  | fileLoaded (k : Kind) (e : DialogFileLoaded)
  | fileLoadCanceled (k : Kind)
  | dirPicked (k : Kind) (e : DialogDirectoryPicked)
  | dirPickCanceled (k : Kind)
  | filePicked (k : Kind) (e : DialogFilePicked)
  | filePickCanceled (k : Kind)
deriving DecidableEq, Repr

/-- The marker kind an event is typed by. -/
def OutEvent.marker : OutEvent → Kind
  | .fileSaved k _ => k
  | .fileSaveCanceled k => k
  | .fileLoaded k _ => k
  | .fileLoadCanceled k => k
  | .dirPicked k _ => k
  | .dirPickCanceled k => k
  | .filePicked k _ => k
  | .filePickCanceled k => k

/-- Whether an event is a completion event (carries a payload), as opposed to
a cancellation signal. -/
def OutEvent.isCompletion : OutEvent → Bool
  | .fileSaved _ _ => true
  | .fileLoaded _ _ => true
  | .dirPicked _ _ => true
  | .filePicked _ _ => true
  | _ => false

/-- The completion events of an emitted stream. -/
def completionEvents (l : List OutEvent) : List OutEvent :=
  l.filter OutEvent.isCompletion

/-- The cancellation events of an emitted stream. -/
def cancelEvents (l : List OutEvent) : List OutEvent :=
  l.filter (fun e => !e.isCompletion)

/-- `poll_save_dialog_result` (src/lib.rs:177-188), applied to the drained
messages: `Some(event)` emits the saved event, `None` emits one cancellation. -/
def pollSaveMsgs (k : Kind) (msgs : List (Option DialogFileSaved)) : List OutEvent :=
  msgs.map fun m =>
    match m with
    | some e => .fileSaved k e
    | none => .fileSaveCanceled k

/-- `poll_load_dialog_result` (src/lib.rs:164-175). -/
def pollLoadMsgs (k : Kind) (msgs : List (Option DialogFileLoaded)) : List OutEvent :=
  msgs.map fun m =>
    match m with
    | some e => .fileLoaded k e
    | none => .fileLoadCanceled k

/-- `poll_load_multiple_dialog_result` (src/lib.rs:151-162): `Some(events)`
emits the whole batch via `send_batch` within this one system run; `None`
emits one cancellation. -/
def pollLoadMultipleMsgs (k : Kind) (msgs : List (Option (List DialogFileLoaded))) :
    List OutEvent :=
  msgs.flatMap fun m =>
    match m with
    | some es => es.map (.fileLoaded k)
    | none => [.fileLoadCanceled k]

/-- Modelled from the spec: `handle_dialog_result` is referenced by
`src/pick.rs` (`use crate::{handle_dialog_result, ...}`, registered at
src/pick.rs:81-84, 105-108) but its definition is not under `src/`.  Per the
spec's Tick Poller: "`Single(item)` → emit one completion event. `Batch(items)`
→ emit one completion event per item, all within the same tick. `Canceled` →
emit exactly one cancellation event (signal only, no payload)."  Instantiated
here for the pick-directory family. -/
def handleDirResultMsgs (k : Kind) (msgs : List (DialogResult DialogDirectoryPicked)) :
    List OutEvent :=
  msgs.flatMap fun m =>
    match m with
    | .single e => [.dirPicked k e]
    | .batch es => es.map (.dirPicked k)
    | .canceled => [.dirPickCanceled k]

/-- Modelled from the spec: `handle_dialog_result` for the pick-file family;
see `handleDirResultMsgs`. -/
def handleFileResultMsgs (k : Kind) (msgs : List (DialogResult DialogFilePicked)) :
    List OutEvent :=
  msgs.flatMap fun m =>
    match m with
    | .single e => [.filePicked k e]
    | .batch es => es.map (.filePicked k)
    | .canceled => [.filePickCanceled k]

/-- Whether an event belongs to the save family (`DialogFileSaved<T>` or
`DialogFileSaveCanceled<T>`). -/
def OutEvent.isSaveFamily : OutEvent → Bool
  | .fileSaved _ _ => true
  | .fileSaveCanceled _ => true
  | _ => false

/-- Whether an event belongs to the load family (`DialogFileLoaded<T>` or
`DialogFileLoadCanceled<T>`; both load pollers emit these). -/
def OutEvent.isLoadFamily : OutEvent → Bool
  | .fileLoaded _ _ => true
  | .fileLoadCanceled _ => true
  | _ => false

/-- Project the save-channel payload out of a universal message.  A well-typed
world only ever holds `saveMsg` values in a `saveFile`-family channel; the
projection is the artifact of erasing Rust's type-indexed resources. -/
def Msg.asSave : Msg → Option (Option DialogFileSaved)
  | .saveMsg m => some m
  | _ => none

/-- Project the load-channel payload out of a universal message. -/
def Msg.asLoad : Msg → Option (Option DialogFileLoaded)
  | .loadMsg m => some m
  | _ => none

/-- Project the load-multiple-channel payload out of a universal message. -/
def Msg.asLoadMulti : Msg → Option (Option (List DialogFileLoaded))
  | .loadMultiMsg m => some m
  | _ => none

/-- One run of `poll_save_dialog_result::<T>` against the world: drain the
`(saveFile, k)` receiver in arrival order and emit events.  An absent or empty
mailbox emits nothing. -/
def drainSave (w : World) (k : Kind) : List OutEvent :=
  match getResource w (Family.saveFile, k) with
  | none => []
  | some ch => pollSaveMsgs k (ch.buf.filterMap Msg.asSave)

/-- One run of `poll_load_dialog_result::<T>` against the world. -/
def drainLoad (w : World) (k : Kind) : List OutEvent :=
  match getResource w (Family.loadFile, k) with
  | none => []
  | some ch => pollLoadMsgs k (ch.buf.filterMap Msg.asLoad)

/-- One run of `poll_load_multiple_dialog_result::<T>` against the world. -/
def drainLoadMulti (w : World) (k : Kind) : List OutEvent :=
  match getResource w (Family.loadMultipleFiles, k) with
  | none => []
  | some ch => pollLoadMultipleMsgs k (ch.buf.filterMap Msg.asLoadMulti)

/-! ## Helper lemmas -/

/-- Pushing a message into the channel at one key leaves lookups at every
other key unchanged. -/
theorem getResource_pushMsg_ne (w : World) (key key2 : ResKey) (m : Msg)
    (h : key ≠ key2) : getResource (pushMsg w key m) key2 = getResource w key2 := by
  induction w with
  | nil => rfl
  | cons p rest ih =>
    obtain ⟨k, c⟩ := p
    by_cases hk : k = key
    · subst hk
      simp only [pushMsg, if_pos rfl, getResource, if_neg h]
    · simp only [pushMsg, if_neg hk, getResource]
      by_cases hk2 : k = key2
      · simp [hk2]
      · simp [hk2, ih]

/-- Every event the save poller emits is a save-family event tagged with the
poller's own marker kind. -/
theorem mem_pollSaveMsgs (k : Kind) (msgs : List (Option DialogFileSaved))
    (e : OutEvent) (he : e ∈ pollSaveMsgs k msgs) :
    e.marker = k ∧ e.isSaveFamily = true := by
  simp only [pollSaveMsgs, List.mem_map] at he
  obtain ⟨m, _, rfl⟩ := he
  cases m <;> simp [OutEvent.marker, OutEvent.isSaveFamily]

/-- Every event the single-load poller emits is a load-family event tagged
with the poller's own marker kind. -/
theorem mem_pollLoadMsgs (k : Kind) (msgs : List (Option DialogFileLoaded))
    (e : OutEvent) (he : e ∈ pollLoadMsgs k msgs) :
    e.marker = k ∧ e.isLoadFamily = true := by
  simp only [pollLoadMsgs, List.mem_map] at he
  obtain ⟨m, _, rfl⟩ := he
  cases m <;> simp [OutEvent.marker, OutEvent.isLoadFamily]

/-- Every event the multi-load poller emits is a load-family event tagged with
the poller's own marker kind. -/
theorem mem_pollLoadMultipleMsgs (k : Kind) (msgs : List (Option (List DialogFileLoaded)))
    (e : OutEvent) (he : e ∈ pollLoadMultipleMsgs k msgs) :
    e.marker = k ∧ e.isLoadFamily = true := by
  simp only [pollLoadMultipleMsgs, List.mem_flatMap] at he
  obtain ⟨m, _, hm⟩ := he
  cases m with
  | none => simp at hm; subst hm; simp [OutEvent.marker, OutEvent.isLoadFamily]
  | some es =>
    simp only [List.mem_map] at hm
    obtain ⟨ev, _, rfl⟩ := hm
    simp [OutEvent.marker, OutEvent.isLoadFamily]

/-- A batch of load-completion events filtered for completions is itself. -/
theorem completionEvents_loaded_batch (k : Kind) (fs : List FileHandle) :
    completionEvents (fs.map fun f => OutEvent.fileLoaded k ⟨f.file_name, f.contents⟩)
      = fs.map fun f => OutEvent.fileLoaded k ⟨f.file_name, f.contents⟩ := by
  induction fs with
  | nil => rfl
  | cons f rest ih =>
    simp only [List.map_cons, completionEvents, List.filter] at *
    simp [OutEvent.isCompletion, ih]

/-- A batch of load-completion events contains no cancellation events. -/
theorem cancelEvents_loaded_batch (k : Kind) (fs : List FileHandle) :
    cancelEvents (fs.map fun f => OutEvent.fileLoaded k ⟨f.file_name, f.contents⟩) = [] := by
  induction fs with
  | nil => rfl
  | cons f rest ih =>
    simp only [List.map_cons, cancelEvents, List.filter] at *
    simp [OutEvent.isCompletion, ih]

/-! ## The claims -/

/-- C1: the claim says every filter sequence added via `FileDialog::add_filter`
is passed, in insertion order, to the platform dialog provider.  The builder
does keep the filters in insertion order, but the spawned save task constructs
`AsyncFileDialog::new()` and never applies the builder state (src/lib.rs:309),
so the provider receives no filters at all: with one filter
`("Text", ["txt"])` configured, the builder holds it but the provider
configuration carries the empty filter list. -/
theorem c1_filters_not_forwarded_to_provider :
    (FileDialog.dialog.add_filter "Text" ["txt"]).filters = [("Text", ["txt"])] ∧
    (∀ d : FileDialog, (saveFileProviderConfig d).filters = []) ∧
    (saveFileProviderConfig (FileDialog.dialog.add_filter "Text" ["txt"])).filters ≠
      (FileDialog.dialog.add_filter "Text" ["txt"]).filters := by
  refine ⟨rfl, fun _ => rfl, ?_⟩
  simp [saveFileProviderConfig, AsyncFileDialog.new, FileDialog.dialog, FileDialog.add_filter]

/-- C2: a terminal launch call against an unregistered `(family, kind)` fails
with the configuration error during that same tick's command application (the
queued closure's `expect` on the missing `StreamSender` resource), and never
reaches any later tick: `runTickCommands` — the command flush of the launching
tick — errors exactly when some queued launch's key is unregistered, and a
launch against a registered kind applies cleanly with no error. -/
theorem c2_unregistered_kind_fails_at_launch (w : World) (cmds : List LaunchCmd)
    (c : LaunchCmd) :
    ((∃ e, runTickCommands w cmds = .error e) ↔
      ∃ c2 ∈ cmds, getResource w c2.requiredKey = none) ∧
    (applyLaunchCmd w c = .error (.notInitializedFor c.requiredKey) ↔
      getResource w c.requiredKey = none) ∧
    (applyLaunchCmd w c = .ok w ↔ getResource w c.requiredKey ≠ none) := by
  refine ⟨?_, ?_, ?_⟩
  · induction cmds with
    | nil => simp [runTickCommands]
    | cons c2 cs ih =>
      cases hres : getResource w c2.requiredKey with
      | none =>
        simp only [runTickCommands, applyLaunchCmd, hres]
        exact ⟨fun _ => ⟨c2, by simp, hres⟩, fun _ => ⟨_, rfl⟩⟩
      | some ch =>
        simp only [runTickCommands, applyLaunchCmd, hres]
        rw [ih]
        constructor
        · rintro ⟨c3, hmem, hc3⟩
          exact ⟨c3, List.mem_cons_of_mem _ hmem, hc3⟩
        · rintro ⟨c3, hmem, hc3⟩
          rcases List.mem_cons.mp hmem with h3 | h3
          · subst h3; rw [hres] at hc3; cases hc3
          · exact ⟨c3, h3, hc3⟩
  · cases hres : getResource w c.requiredKey <;> simp [applyLaunchCmd, hres]
  · cases hres : getResource w c.requiredKey <;> simp [applyLaunchCmd, hres]

/-- C3: a launch whose provider future resolves to `None` (user dismissal)
sends exactly one payload-free message, and draining that message emits
exactly one cancellation event and zero completion events, for every launch
family: save, load, multi-load (src/lib.rs) and the four pick variants
(src/pick.rs, handler modelled from the spec). -/
theorem c3_cancel_one_cancellation_zero_completions (k : Kind)
    (write : FileHandle → List Nat → IoResult) (contents : List Nat) (data : Nat) :
    pollSaveMsgs k (saveTaskTrace none write contents) = [.fileSaveCanceled k] ∧
    pollLoadMsgs k (loadTaskTrace none) = [.fileLoadCanceled k] ∧
    pollLoadMultipleMsgs k (loadMultipleTaskTrace none) = [.fileLoadCanceled k] ∧
    handleDirResultMsgs k (pickDirectoryTaskTrace none data) = [.dirPickCanceled k] ∧
    handleDirResultMsgs k (pickMultipleDirectoriesTaskTrace none data) = [.dirPickCanceled k] ∧
    handleFileResultMsgs k (pickFileTaskTrace none data) = [.filePickCanceled k] ∧
    handleFileResultMsgs k (pickMultipleFilesTaskTrace none data) = [.filePickCanceled k] ∧
    completionEvents [OutEvent.fileSaveCanceled k] = [] ∧
    completionEvents [OutEvent.fileLoadCanceled k] = [] ∧
    completionEvents [OutEvent.dirPickCanceled k] = [] ∧
    completionEvents [OutEvent.filePickCanceled k] = [] ∧
    (cancelEvents [OutEvent.fileSaveCanceled k]).length = 1 ∧
    (cancelEvents [OutEvent.fileLoadCanceled k]).length = 1 ∧
    (cancelEvents [OutEvent.dirPickCanceled k]).length = 1 ∧
    (cancelEvents [OutEvent.filePickCanceled k]).length = 1 :=
  ⟨rfl, rfl, rfl, rfl, rfl, rfl, rfl, rfl, rfl, rfl, rfl, rfl, rfl, rfl, rfl⟩

/-- C4: a multi-select load whose provider returns the file list `fs` emits
exactly `fs.length` completion events, in provider order, all inside the one
message the task sends and hence inside the single drain of the poll system
that removes it; there are no cancellation events.  Zero completion events
arise exactly from the explicit `None` (canceled) result, given the provider
contract that a selection is a non-empty list (`res ≠ some []`: the provider
"returns none exactly on user dismissal"). -/
theorem c4_multi_load_batch (k : Kind) (res : Option (List FileHandle))
    (hres : res = none ∨ ∃ fs, res = some fs ∧ fs ≠ []) :
    (∀ fs, res = some fs →
      pollLoadMultipleMsgs k (loadMultipleTaskTrace res)
          = fs.map (fun f => OutEvent.fileLoaded k ⟨f.file_name, f.contents⟩) ∧
      (completionEvents (pollLoadMultipleMsgs k (loadMultipleTaskTrace res))).length
          = fs.length ∧
      cancelEvents (pollLoadMultipleMsgs k (loadMultipleTaskTrace res)) = []) ∧
    (res = none →
      pollLoadMultipleMsgs k (loadMultipleTaskTrace res) = [.fileLoadCanceled k]) ∧
    (completionEvents (pollLoadMultipleMsgs k (loadMultipleTaskTrace res)) = []
      ↔ res = none) := by
  cases res with
  | none =>
    refine ⟨?_, ?_, ?_⟩
    · intro fs h
      exact Option.noConfusion h
    · intro _
      rfl
    · simp [loadMultipleTaskTrace, pollLoadMultipleMsgs, completionEvents,
        OutEvent.isCompletion, List.filter]
  | some fs =>
    have hfs : fs ≠ [] := by
      rcases hres with h | ⟨fs2, h2, hne⟩
      · exact Option.noConfusion h
      · injection h2 with h2
        subst h2
        exact hne
    have hout : pollLoadMultipleMsgs k (loadMultipleTaskTrace (some fs))
        = fs.map (fun f => OutEvent.fileLoaded k ⟨f.file_name, f.contents⟩) := by
      simp [loadMultipleTaskTrace, pollLoadMultipleMsgs, List.map_map]
    refine ⟨?_, ?_, ?_⟩
    · intro fs2 h2
      injection h2 with h2
      subst h2
      refine ⟨hout, ?_, ?_⟩
      · rw [hout, completionEvents_loaded_batch, List.length_map]
      · rw [hout, cancelEvents_loaded_batch]
    · intro h
      exact Option.noConfusion h
    · rw [hout, completionEvents_loaded_batch]
      simp [hfs]

/-- Witness for C4 at a concrete two-file selection: the provider returning
two files yields exactly those two completion events, in provider order. -/
theorem c4_multi_load_batch_witness :
    pollLoadMultipleMsgs 0 (loadMultipleTaskTrace
        (some [⟨"a.txt", ⟨some "/a.txt"⟩, [104]⟩, ⟨"b.txt", ⟨some "/b.txt"⟩, [105]⟩])) =
      [OutEvent.fileLoaded 0 ⟨"a.txt", [104]⟩, OutEvent.fileLoaded 0 ⟨"b.txt", [105]⟩] :=
  ((c4_multi_load_batch 0
    (some [⟨"a.txt", ⟨some "/a.txt"⟩, [104]⟩, ⟨"b.txt", ⟨some "/b.txt"⟩, [105]⟩])
    (Or.inr ⟨[⟨"a.txt", ⟨some "/a.txt"⟩, [104]⟩, ⟨"b.txt", ⟨some "/b.txt"⟩, [105]⟩],
      rfl, by simp⟩)).1
    [⟨"a.txt", ⟨some "/a.txt"⟩, [104]⟩, ⟨"b.txt", ⟨some "/b.txt"⟩, [105]⟩] rfl).1

/-- C5: `set_directory` with an empty path clears the starting-directory hint
and any non-empty path (including a non-UTF-8 one, whose `to_str` is `None`)
sets it to that path; a later `set_directory` call fully overrides an earlier
one. -/
theorem c5_set_directory (d : FileDialog) (p q : OsPath) :
    ((d.set_directory p).starting_directory
        = if p.to_str = some "" then none else some p) ∧
    ((d.set_directory q).set_directory p).starting_directory
        = (d.set_directory p).starting_directory := by
  have h : ∀ d2 : FileDialog, (d2.set_directory p).starting_directory
      = if p.to_str = some "" then none else some p := by
    intro d2
    unfold FileDialog.set_directory
    cases hp : p.to_str with
    | none => simp [hp]
    | some s =>
      by_cases hs : s = ""
      · subst hs; simp [hp, String.isEmpty_iff]
      · simp [hp, String.isEmpty_iff, hs]
  exact ⟨h d, by rw [h (d.set_directory q), h d]⟩

/-- C6: when the user chose a save target, the task sends exactly one message
carrying the outcome of `file.write(&contents).await` — whatever the
filesystem answers, success or failure — and the poll system turns it into
exactly one completion event holding that result; no cancellation event is
ever emitted for a chosen target, so a write failure never becomes a
cancellation. -/
theorem c6_save_write_result_in_completion_event (k : Kind) (f : FileHandle)
    (write : FileHandle → List Nat → IoResult) (contents : List Nat) :
    pollSaveMsgs k (saveTaskTrace (some f) write contents)
        = [OutEvent.fileSaved k ⟨f.file_name, write f contents⟩] ∧
    completionEvents (pollSaveMsgs k (saveTaskTrace (some f) write contents))
        = [OutEvent.fileSaved k ⟨f.file_name, write f contents⟩] ∧
    cancelEvents (pollSaveMsgs k (saveTaskTrace (some f) write contents)) = [] :=
  ⟨rfl, rfl, rfl⟩

/-- C7: every background unit — save, load, multi-load, and the four pick
variants — sends exactly one message over its whole lifetime, whatever the
provider returns; and the message sent on user dismissal is the payload-free
cancellation marker (`None` on the `Option`-typed channels,
`DialogResult::Canceled` on the pick channels), carrying no item and no user
data. -/
theorem c7_exactly_one_tagged_result (file : Option FileHandle)
    (files : Option (List FileHandle)) (dir : Option OsPath)
    (dirs : Option (List OsPath)) (fp : Option OsPath) (fps : Option (List OsPath))
    (write : FileHandle → List Nat → IoResult) (contents : List Nat) (data : Nat) :
    (saveTaskTrace file write contents).length = 1 ∧
    (loadTaskTrace file).length = 1 ∧
    (loadMultipleTaskTrace files).length = 1 ∧
    (pickDirectoryTaskTrace dir data).length = 1 ∧
    (pickMultipleDirectoriesTaskTrace dirs data).length = 1 ∧
    (pickFileTaskTrace fp data).length = 1 ∧
    (pickMultipleFilesTaskTrace fps data).length = 1 ∧
    saveTaskTrace none write contents = [none] ∧
    loadTaskTrace none = [none] ∧
    loadMultipleTaskTrace none = [none] ∧
    pickDirectoryTaskTrace none data = [DialogResult.canceled] ∧
    pickMultipleDirectoriesTaskTrace none data = [DialogResult.canceled] ∧
    pickFileTaskTrace none data = [DialogResult.canceled] ∧
    pickMultipleFilesTaskTrace none data = [DialogResult.canceled] := by
  cases file <;> cases files <;> cases dir <;> cases dirs <;> cases fp <;> cases fps <;>
    exact ⟨rfl, rfl, rfl, rfl, rfl, rfl, rfl, rfl, rfl, rfl, rfl, rfl, rfl, rfl⟩

/-- C8: each `(kind, family)` pair has its own mailbox, and draining kind `A`
never yields another kind's events: every event each poller emits is tagged
with the poller's own marker kind and belongs to the poller's own family, and
delivering a message into any other channel — a different marker kind or a
different family — leaves kind `A`'s drain output unchanged. -/
theorem c8_no_cross_kind_delivery (w : World) (A : Kind) (key : ResKey) (m : Msg)
    (h1 : key ≠ (Family.saveFile, A)) (h2 : key ≠ (Family.loadFile, A))
    (h3 : key ≠ (Family.loadMultipleFiles, A)) :
    (∀ e ∈ drainSave w A, e.marker = A ∧ e.isSaveFamily = true) ∧
    (∀ e ∈ drainLoad w A, e.marker = A ∧ e.isLoadFamily = true) ∧
    (∀ e ∈ drainLoadMulti w A, e.marker = A ∧ e.isLoadFamily = true) ∧
    drainSave (pushMsg w key m) A = drainSave w A ∧
    drainLoad (pushMsg w key m) A = drainLoad w A ∧
    drainLoadMulti (pushMsg w key m) A = drainLoadMulti w A := by
  refine ⟨?_, ?_, ?_, ?_, ?_, ?_⟩
  · intro e he
    unfold drainSave at he
    cases hres : getResource w (Family.saveFile, A) with
    | none => rw [hres] at he; cases he
    | some ch => rw [hres] at he; exact mem_pollSaveMsgs A _ e he
  · intro e he
    unfold drainLoad at he
    cases hres : getResource w (Family.loadFile, A) with
    | none => rw [hres] at he; cases he
    | some ch => rw [hres] at he; exact mem_pollLoadMsgs A _ e he
  · intro e he
    unfold drainLoadMulti at he
    cases hres : getResource w (Family.loadMultipleFiles, A) with
    | none => rw [hres] at he; cases he
    | some ch => rw [hres] at he; exact mem_pollLoadMultipleMsgs A _ e he
  · unfold drainSave
    rw [getResource_pushMsg_ne w key _ m h1]
  · unfold drainLoad
    rw [getResource_pushMsg_ne w key _ m h2]
  · unfold drainLoadMulti
    rw [getResource_pushMsg_ne w key _ m h3]

/-- Witness for C8: with kind 0's save channel holding a completed save and a
message delivered into kind 1's save channel, draining kind 0 still yields
only kind 0's event. -/
theorem c8_no_cross_kind_delivery_witness :
    drainSave
      (pushMsg [((Family.saveFile, 0), ⟨1, [Msg.saveMsg (some ⟨"a.txt", IoResult.ok⟩)]⟩),
                ((Family.saveFile, 1), ⟨1, []⟩)]
        (Family.saveFile, 1) (Msg.saveMsg none)) 0
      = drainSave [((Family.saveFile, 0), ⟨1, [Msg.saveMsg (some ⟨"a.txt", IoResult.ok⟩)]⟩),
                   ((Family.saveFile, 1), ⟨1, []⟩)] 0 :=
  (c8_no_cross_kind_delivery
    [((Family.saveFile, 0), ⟨1, [Msg.saveMsg (some ⟨"a.txt", IoResult.ok⟩)]⟩),
     ((Family.saveFile, 1), ⟨1, []⟩)]
    0 (Family.saveFile, 1) (Msg.saveMsg none)
    (by decide) (by decide) (by decide)).2.2.2.1

/-- C9: `Plugin::build` with an empty registration list hits the `assert!` and
panics; with a non-empty list it applies every registration closure in the
order the `with_*` calls pushed them and returns normally.  The last conjunct
exhibits the order for a two-registration plugin built by chained `with_*`
calls. -/
theorem c9_build_asserts_and_applies_in_order (acts : List RegAction) (app : App)
    (h : acts ≠ []) (k1 k2 : Kind) :
    FileDialogPlugin.build [] app = .error BuildError.notInitialized ∧
    FileDialogPlugin.build acts app = .ok (applyActions acts app) ∧
    FileDialogPlugin.build
        (FileDialogPlugin.with_load_file (FileDialogPlugin.with_save_file FileDialogPlugin.new k1) k2) app
      = .ok (applyAction (RegAction.withLoadFileAct k2)
          (applyAction (RegAction.withSaveFileAct k1) app)) := by
  cases acts with
  | nil => exact absurd rfl h
  | cons a rest => exact ⟨rfl, rfl, rfl⟩

/-- Witness for C9 at a concrete plugin with two registrations. -/
theorem c9_build_asserts_and_applies_in_order_witness :
    FileDialogPlugin.build [] App.empty = .error BuildError.notInitialized ∧
    FileDialogPlugin.build [RegAction.withSaveFileAct 0, RegAction.withLoadFileAct 1] App.empty
      = .ok (applyActions [RegAction.withSaveFileAct 0, RegAction.withLoadFileAct 1] App.empty) ∧
    FileDialogPlugin.build
        (FileDialogPlugin.with_load_file (FileDialogPlugin.with_save_file FileDialogPlugin.new 0) 1) App.empty
      = .ok (applyAction (RegAction.withLoadFileAct 1)
          (applyAction (RegAction.withSaveFileAct 0) App.empty)) :=
  c9_build_asserts_and_applies_in_order
    [RegAction.withSaveFileAct 0, RegAction.withLoadFileAct 1] App.empty
    (by simp) 0 1

/-- C10: every channel a registration closure creates is `bounded(1)` — a
fresh capacity-one, initially empty mailbox (first conjunct: any channel
present after `applyAction` that was not already in the app is exactly
`⟨1, []⟩`); and on a capacity-one channel already holding one undelivered
result, a second completing background unit's `send` cannot enqueue and
blocks until the first result is drained (second conjunct). -/
theorem c10_mailbox_capacity_one (act : RegAction) (app : App) (key : ResKey)
    (ch : Channel) (hget : getResource (applyAction act app).world key = some ch)
    (hnew : getResource app.world key = none)
    (full : Channel) (m : Msg) (hcap : full.cap = 1) (hbuf : full.buf ≠ []) :
    ch = ⟨1, []⟩ ∧ Channel.send full m = none := by
  constructor
  · cases act <;>
      (simp only [applyAction, insertResource, getResource] at hget;
       split_ifs at hget <;> simp_all [getResource])
  · unfold Channel.send
    rw [hcap]
    have hlen : ¬full.buf.length < 1 := by
      cases hb : full.buf with
      | nil => exact absurd hb hbuf
      | cons x xs => simp [hb]
    rw [if_neg hlen]

/-- Witness for C10: the save registration creates the capacity-one empty
channel, and a send on a full capacity-one channel blocks. -/
theorem c10_mailbox_capacity_one_witness :
    (⟨1, []⟩ : Channel) = ⟨1, []⟩ ∧
    Channel.send ⟨1, [Msg.saveMsg none]⟩ (Msg.saveMsg (some ⟨"a.txt", IoResult.ok⟩)) = none :=
  c10_mailbox_capacity_one (RegAction.withSaveFileAct 0) App.empty
    (Family.saveFile, 0) ⟨1, []⟩ (by decide) (by decide)
    ⟨1, [Msg.saveMsg none]⟩ (Msg.saveMsg (some ⟨"a.txt", IoResult.ok⟩))
    rfl (by decide)

end BevyFileDialog
